import Mathlib

/-!
Formal model of the pomodoro-timer application (Go, single file): the settings
store (`loadSettings`/`saveSettings`), the session state machine
(`startTimer`/`handleTrayClick`/`handleTimerClick` and the per-second countdown
goroutine body), and the synthesized short-beep tone generator
(`NewSineWave`/`SineWave.Read`), together with theorems about their behavior.

Conventions of the embedding:
- `time.Duration` values are whole seconds throughout the program (every write
  is a whole number of seconds), so durations are modeled as `Int` seconds.
- Go `int` fields are modeled as `Int`.
- Side effects on the external collaborators (the systray and the audio
  device) are modeled as an explicit event list (`Ev`), one event per call.
- Fields of float64 type (`freq`, `amplitude`) enter the observable output
  only through the quantized per-sample value computed on source line 248;
  that value is abstracted as an explicit `sample` function argument since
  floating point is not shallowly embeddable.
-/

/-- Model of the `TimerSettings` struct: durations in minutes plus the
clock-sound flag (Go `int` fields modeled as `Int`). -/
structure TimerSettings where
  pomodoroDuration : Int
  shortBreakDuration : Int
  longBreakDuration : Int
  enableClockSound : Bool
deriving Repr, DecidableEq

/-- Built-in defaults assigned at the top of `loadSettings` (source lines
290-295). -/
def defaultSettings : TimerSettings :=
  { pomodoroDuration := 25, shortBreakDuration := 5, longBreakDuration := 15,
    enableClockSound := true }

/-- Wire-level view of the settings JSON document: which of the four known
fields are present, and with what values. Unknown extra fields are ignored by
`json.Unmarshal` and therefore not represented. -/
structure SettingsDoc where
  pomodoro_duration : Option Int
  short_break_duration : Option Int
  long_break_duration : Option Int
  enable_clock_sound : Option Bool
deriving Repr, DecidableEq

/-- Model of `json.Unmarshal(data, &settings)` on a document that parses:
each field present in the document overwrites the corresponding struct field;
absent fields leave the pre-existing value untouched. -/
def unmarshalInto (s : TimerSettings) (d : SettingsDoc) : TimerSettings :=
  { pomodoroDuration := d.pomodoro_duration.getD s.pomodoroDuration,
    shortBreakDuration := d.short_break_duration.getD s.shortBreakDuration,
    longBreakDuration := d.long_break_duration.getD s.longBreakDuration,
    enableClockSound := d.enable_clock_sound.getD s.enableClockSound }

/-- Model of `loadSettings` (source lines 289-305). The settings file as seen
by the function is `none` when `ioutil.ReadFile` fails (file absent),
`some none` when the file is read but `json.Unmarshal` returns an error
(contents unparsable; the error is logged and the pre-assigned defaults are
kept), and `some (some d)` when the contents unmarshal to document `d`.
The function is total: no error is ever raised to the caller. -/
def loadSettings (file : Option (Option SettingsDoc)) : TimerSettings :=
  let s := defaultSettings
  match file with
  | none => s
  | some none => s
  | some (some d) => unmarshalInto s d

/-- Model of `json.MarshalIndent(settings, ...)`: emits all four fields (the
struct has no omitempty tags), producing a document in which every field is
present. -/
def marshalSettings (S : TimerSettings) : SettingsDoc :=
  { pomodoro_duration := some S.pomodoroDuration,
    short_break_duration := some S.shortBreakDuration,
    long_break_duration := some S.longBreakDuration,
    enable_clock_sound := some S.enableClockSound }

/-- Model of `saveSettings` (source lines 308-319): the settings-file contents
produced by a save, in the form `loadSettings` consumes. Marshaling a
`TimerSettings` value never fails, and reading the written file back parses to
the marshaled document. -/
def saveSettings (S : TimerSettings) : Option (Option SettingsDoc) :=
  some (some (marshalSettings S))

/-- One observable call to an external collaborator (systray or audio device)
made by the state machine. `terminalRender` and `stopRender` denote the same
external call, `systray.SetIconFromMemory(generateIconWithDots("▶",
pomodoroCount))`, distinguished here by call site. -/
inductive Ev where
  /-- The idle-glyph icon render issued by the countdown goroutine in its
  terminal (`remainingTime <= 0`) branch, source line 506. -/
  | terminalRender (dots : Int)
  /-- The idle-glyph icon render issued by `handleTrayClick`'s stop branch,
  source line 441. -/
  | stopRender (dots : Int)
  /-- `systray.SetIconFromMemory(generateIconWithDots(displayText,
  pomodoroCount))`, source line 521. -/
  | displayRender (text : String) (dots : Int)
  /-- `playTickSound()` in the terminal branch, source line 507: the
  completion beep. -/
  | completionBeep
  /-- `playTickSound()` in the final-seconds branch, source line 512: the
  per-second tick cue. -/
  | tickBeep
  /-- `systray.SetTooltip(...)`. -/
  | tooltip (text : String)
deriving Repr, DecidableEq

/-- Predicate selecting the terminal (natural-completion) icon render. -/
def Ev.isTerminalRender : Ev → Bool
  | .terminalRender _ => true
  | _ => false

/-- Predicate selecting the completion beep. -/
def Ev.isCompletionBeep : Ev → Bool
  | .completionBeep => true
  | _ => false

/-- Predicate selecting the per-second tick cue. -/
def Ev.isTickBeep : Ev → Bool
  | .tickBeep => true
  | _ => false

/-- The shared mutable state of the session state machine (the package-level
variables of the source, lines 69-77). `gen` models the identity of the
current `stopCh` channel: it is bumped each time `stopCh` is closed and
remade, and a countdown goroutine spawned while `gen = g` is dead (exits via
the closed channel without further mutation) once `g` differs from the
current `gen` — the spec's "generation token". -/
structure AppState where
  pomodoroCount : Int
  isRunning : Bool
  isInPomodoro : Bool
  remainingTime : Int
  oldDisplayText : String
  gen : Nat
deriving Repr, DecidableEq

/-- The zero-valued package-level state the process starts with. -/
def initialState : AppState :=
  { pomodoroCount := 0, isRunning := false, isInPomodoro := false,
    remainingTime := 0, oldDisplayText := "", gen := 0 }

/-- The countdown display text (source lines 514-519):
`fmt.Sprintf("%d", int(remainingTime.Seconds()))` under one minute, otherwise
`fmt.Sprintf("%d", int(remainingTime.Minutes()))`. The Go float-to-int
conversions truncate toward zero, hence `Int.tdiv`. -/
def displayTextOf (r : Int) : String :=
  if r < 60 then toString r else toString (r.tdiv 60)

/-- `%02d` rendering of a tooltip component (nonnegative in this program). -/
def pad2 (n : Int) : String :=
  if n < 10 then "0" ++ toString n else toString n

/-- The tooltip `fmt.Sprintf("%02d:%02d", int(remainingTime.Minutes()),
int(remainingTime.Seconds())%60)` of source line 524 (Go `%` is the
truncating remainder, hence `Int.tmod`). -/
def tooltipOf (r : Int) : String :=
  pad2 (r.tdiv 60) ++ ":" ++ pad2 (r.tmod 60)

/-- The body of one `ticker.C` delivery inside the countdown goroutine
(source lines 493-525), run under the state lock: decrement `remainingTime`
by one second; on reaching `<= 0` take the terminal branch (clear `isRunning`,
wrap-increment `pomodoroCount` for a focus session, set the finished tooltip,
render the idle icon, play the completion beep); otherwise play the tick cue
in the final 11 seconds, re-render the icon when the display text changed,
and refresh the tooltip. -/
def tickBody (s : AppState) : AppState × List Ev :=
  let r := s.remainingTime - 1
  if r ≤ 0 then
    if s.isInPomodoro then
      let c := if s.pomodoroCount + 1 > 4 then 1 else s.pomodoroCount + 1
      ({ s with remainingTime := r, isRunning := false, pomodoroCount := c },
       [Ev.tooltip "Finished pomodoro - Click to start break",
        Ev.terminalRender c, Ev.completionBeep])
    else
      ({ s with remainingTime := r, isRunning := false },
       [Ev.tooltip "Finished break - Click to start pomodoro",
        Ev.terminalRender s.pomodoroCount, Ev.completionBeep])
  else
    let text := displayTextOf r
    ({ s with remainingTime := r,
              oldDisplayText := if text ≠ s.oldDisplayText then text
                                else s.oldDisplayText },
     (if r < 11 then [Ev.tickBeep] else []) ++
     (if text ≠ s.oldDisplayText then [Ev.displayRender text s.pomodoroCount]
      else []) ++
     [Ev.tooltip (tooltipOf r)])

/-- One `ticker.C` delivery addressed to the countdown goroutine that was
spawned while `gen = g`. If `stopCh` has been replaced since (`g ≠ s.gen`)
that goroutine has already exited via the closed channel and nothing happens;
likewise once its loop guard `remainingTime > 0` has failed. -/
def tickProc (g : Nat) (s : AppState) : AppState × List Ev :=
  if g = s.gen ∧ 0 < s.remainingTime then tickBody s else (s, [])

/-- `n` consecutive deliveries of `ticker.C` to an undisturbed countdown
goroutine (its loop, source lines 490-530, with no stop signal in between). -/
def runTicks : Nat → AppState → AppState × List Ev
  | 0, s => (s, [])
  | n + 1, s =>
    if 0 < s.remainingTime then
      ((runTicks n (tickBody s).1).1,
       (tickBody s).2 ++ (runTicks n (tickBody s).1).2)
    else (s, [])

/-- The synchronous part of `startTimer` (source lines 479-484): set
`isRunning` and `remainingTime`, then spawn the countdown goroutine (whose
per-second body is `tickBody`/`tickProc` above). The ambient clock-sound loop
(`playClockSound`/`stopClockSound`) has no observable modeled here: no claim
concerns it. -/
def startTimer (duration : Int) (s : AppState) : AppState :=
  { s with isRunning := true, remainingTime := duration }

/-- The stop sequence shared by `handleTrayClick` (lines 438-440) and
`handleTimerClick` (lines 471-473): `close(stopCh)`, make a fresh `stopCh`
(bumping the generation token), clear `isRunning`. -/
def stopRunning (s : AppState) : AppState :=
  { s with gen := s.gen + 1, isRunning := false }

/-- `handleTimerClick` (source lines 466-476): used by the menu items; stops
any running countdown, then starts a timer with the given duration
(seconds). It emits no systray calls of its own. -/
def handleTimerClick (duration : Int) (s : AppState) : AppState :=
  startTimer duration (if s.isRunning then stopRunning s else s)

/-- `handleTrayClick` (source lines 432-463): a click on the tray icon. While
running: stop, re-render the idle icon with the current dot count, set a
"stopped" tooltip. While idle: start the next appropriate session (a break
after a focus session — the long break when `pomodoroCount == 4` — otherwise
a focus session), durations taken from the current settings in minutes. -/
def handleTrayClick (stg : TimerSettings) (s : AppState) : AppState × List Ev :=
  if s.isRunning then
    (stopRunning s,
     [Ev.stopRender s.pomodoroCount,
      Ev.tooltip (if s.isInPomodoro then "Pomodoro stopped - Click to start Break"
                  else "Break stopped - Click to start Pomodoro")])
  else if s.isInPomodoro then
    (startTimer ((if s.pomodoroCount = 4 then stg.longBreakDuration
                  else stg.shortBreakDuration) * 60)
       { s with isInPomodoro := false }, [])
  else
    (startTimer (stg.pomodoroDuration * 60) { s with isInPomodoro := true }, [])

/-- The `mPomodoro.Click` handler (source lines 386-391): set
`isInPomodoro = true`, then `handleTimerClick` with the configured pomodoro
duration (minutes, hence `* 60` seconds here). -/
def clickStartPomodoro (stg : TimerSettings) (s : AppState) : AppState :=
  handleTimerClick (stg.pomodoroDuration * 60) { s with isInPomodoro := true }

/-- The `mBreak.Click` handler (source lines 393-398). -/
def clickStartBreak (stg : TimerSettings) (s : AppState) : AppState :=
  handleTimerClick (stg.shortBreakDuration * 60) { s with isInPomodoro := false }

/-- The `mLongBreak.Click` handler (source lines 400-405). -/
def clickStartLongBreak (stg : TimerSettings) (s : AppState) : AppState :=
  handleTimerClick (stg.longBreakDuration * 60) { s with isInPomodoro := false }

/-- States reachable from the initial process state by any sequence of user
start/stop operations (tray click, the three menu clicks — each under
arbitrary current settings, modeling mid-run settings edits) and ticker
deliveries. -/
inductive Reachable : AppState → Prop
  | init : Reachable initialState
  | trayClick (stg : TimerSettings) {s : AppState} :
      Reachable s → Reachable (handleTrayClick stg s).1
  | startPomodoro (stg : TimerSettings) {s : AppState} :
      Reachable s → Reachable (clickStartPomodoro stg s)
  | startBreak (stg : TimerSettings) {s : AppState} :
      Reachable s → Reachable (clickStartBreak stg s)
  | startLongBreak (stg : TimerSettings) {s : AppState} :
      Reachable s → Reachable (clickStartLongBreak stg s)
  | tick (g : Nat) {s : AppState} :
      Reachable s → Reachable (tickProc g s).1

/-- The state of the sine-wave stream (the `SineWave` struct, source lines
218-226). The `freq`, `amplitude`, `sampleRate` and `format` fields also live
in the source struct; `freq` and `amplitude` are float64 and reach the output
bytes only through the per-sample value
`int16(math.Sin(2*pi*p/period) * amplitude * 32767)` of source line 248,
which is abstracted as the `sample` argument of `SineWave.read` below
(floating point is not shallowly embeddable); `format` is always
`FormatSignedInt16LE` in this program. -/
structure SineWave where
  /-- Total stream length in bytes: `int64(sampleRate * duration / 1s)`. -/
  length : Int
  /-- Read position in bytes (`s.pos`). -/
  pos : Int
  /-- The `channelCount` constructor argument. -/
  channelCount : Nat
deriving Repr, DecidableEq

/-- `NewSineWave` (source lines 204-215) for a duration given in whole
milliseconds at the fixed sample rate 44100: the float computation
`int64(float64(44100) * float64(duration) / float64(time.Second))` is exact
for the durations in use. -/
def NewSineWave (channelCount : Nat) (durationMs : Nat) : SineWave :=
  { length := (44100 * durationMs / 1000 : Nat), pos := 0, channelCount }

/-- The wave `playTickSound` constructs (source line 192):
`NewSineWave(440.0, 200ms, 1, FormatSignedInt16LE, 0.3)`. -/
def playTickWave : SineWave :=
  NewSineWave 1 200

/-- The two's-complement 16-bit code of an int16 value. -/
def int16Code (b : Int) : Nat :=
  (b % 65536).toNat

/-- `byte(b)` for an int16 `b`: the low 8 bits. -/
def lowByte (b : Int) : Nat :=
  int16Code b % 256

/-- `byte(b >> 8)` for an int16 `b`: the arithmetic shift keeps the sign
bits, so the resulting byte is the high 8 bits of the two's-complement
code. -/
def highByte (b : Int) : Nat :=
  int16Code b / 256

/-- The bytes of one frame at sample index `p` (source lines 248-252): the
16-bit little-endian sample value written once per channel, consecutive
channels at consecutive 2-byte offsets. -/
def frameBytes (sample : Int → Int) (c : Nat) (p : Int) : List Nat :=
  List.flatten (List.replicate c [lowByte (sample p), highByte (sample p)])

/-- The bytes written by the generation loop of `SineWave.Read` (source lines
246-254): `k` frames starting at sample index `p`. -/
def writeFrames (sample : Int → Int) (c : Nat) (p : Int) : Nat → List Nat
  | 0 => []
  | k + 1 => frameBytes sample c p ++ writeFrames sample c (p + 1) k

/-- `SineWave.Read` (source lines 229-263). The caller's buffer is the list
`buf`; the result is `(n, buffer after the call, stream state after the
call, eof?)` where `n` is the returned byte count. When `pos >= length` the
read returns `(0, io.EOF)` with the buffer untouched; otherwise the buffer is
truncated to the remaining stream length, `len(buf)/num` full frames are
written (`num = 2 * channelCount` bytes each, `p = pos / int64(num)` the
first sample index), bytes of the truncated buffer past the last full frame
keep their previous contents, and `pos` advances by the truncated length. -/
def SineWave.read (sample : Int → Int) (w : SineWave) (buf : List Nat) :
    Nat × List Nat × SineWave × Bool :=
  if w.length ≤ w.pos then (0, buf, w, true)
  else
    let eof := if w.length < w.pos + (buf.length : Int) then true else false
    let n := if w.length < w.pos + (buf.length : Int) then
               (w.length - w.pos).toNat
             else buf.length
    let num := 2 * w.channelCount
    let frames := n / num
    let p := w.pos.tdiv (num : Int)
    let written := writeFrames sample w.channelCount p frames
    (n, written ++ buf.drop written.length, { w with pos := w.pos + n }, eof)

/-- A non-terminal tick (post-decrement remaining still positive) leaves the
counter, the running flag and the session kind untouched, and emits neither a
terminal render nor a completion beep. -/
theorem tickBody_step (s : AppState) (h : 1 < s.remainingTime) :
    (tickBody s).1.remainingTime = s.remainingTime - 1 ∧
    (tickBody s).1.pomodoroCount = s.pomodoroCount ∧
    (tickBody s).1.isRunning = s.isRunning ∧
    (tickBody s).1.isInPomodoro = s.isInPomodoro ∧
    (tickBody s).2.countP Ev.isTerminalRender = 0 ∧
    (tickBody s).2.countP Ev.isCompletionBeep = 0 := by
  have hr : ¬ (s.remainingTime - 1 ≤ 0) := by omega
  by_cases h1 : s.remainingTime - 1 < 11 <;>
    by_cases h2 : displayTextOf (s.remainingTime - 1) ≠ s.oldDisplayText <;>
      simp [tickBody, hr, h1, h2, Ev.isTerminalRender, Ev.isCompletionBeep]

/-- A terminal tick clears the running flag, wrap-increments the counter for
a focus session, and emits exactly one terminal render and one completion
beep (and no tick cue). -/
theorem tickBody_terminal (s : AppState) (h : s.remainingTime ≤ 1) :
    (tickBody s).1.isRunning = false ∧
    (tickBody s).1.remainingTime = s.remainingTime - 1 ∧
    (tickBody s).1.isInPomodoro = s.isInPomodoro ∧
    (tickBody s).1.pomodoroCount = (if s.isInPomodoro then
        (if s.pomodoroCount + 1 > 4 then 1 else s.pomodoroCount + 1)
      else s.pomodoroCount) ∧
    (tickBody s).2.countP Ev.isTerminalRender = 1 ∧
    (tickBody s).2.countP Ev.isCompletionBeep = 1 ∧
    (tickBody s).2.countP Ev.isTickBeep = 0 := by
  have hr : s.remainingTime - 1 ≤ 0 := by omega
  cases hp : s.isInPomodoro <;>
    simp [tickBody, hr, hp, Ev.isTerminalRender, Ev.isCompletionBeep,
      Ev.isTickBeep]

/-- Unfolding of `runTicks` while the loop guard holds. -/
theorem runTicks_succ_pos (n : Nat) (s : AppState) (h : 0 < s.remainingTime) :
    runTicks (n + 1) s = ((runTicks n (tickBody s).1).1,
      (tickBody s).2 ++ (runTicks n (tickBody s).1).2) := by
  simp [runTicks, h]

/-- A countdown with `n + 1` whole seconds remaining, given exactly `n + 1`
undisturbed ticks, completes naturally: the running flag ends false, the
counter wrap-increments exactly for a focus session, and exactly one terminal
render and one completion beep are emitted over the whole trace. -/
theorem runTicks_completes (n : Nat) :
    ∀ s : AppState, s.remainingTime = (n : Int) + 1 →
    (runTicks (n + 1) s).1.isRunning = false ∧
    (runTicks (n + 1) s).1.isInPomodoro = s.isInPomodoro ∧
    (runTicks (n + 1) s).1.remainingTime = 0 ∧
    (runTicks (n + 1) s).1.pomodoroCount = (if s.isInPomodoro then
        (if s.pomodoroCount + 1 > 4 then 1 else s.pomodoroCount + 1)
      else s.pomodoroCount) ∧
    (runTicks (n + 1) s).2.countP Ev.isTerminalRender = 1 ∧
    (runTicks (n + 1) s).2.countP Ev.isCompletionBeep = 1 := by
  induction n with
  | zero =>
    intro s hs
    have h0 : 0 < s.remainingTime := by omega
    obtain ⟨t1, t2, t3, t4, t5, t6, _⟩ := tickBody_terminal s (by omega)
    rw [runTicks_succ_pos 0 s h0]
    simpa [runTicks, hs] using ⟨t1, t3, by omega, t4, t5, t6⟩
  | succ n ih =>
    intro s hs
    have h0 : 0 < s.remainingTime := by omega
    obtain ⟨e1, e2, e3, e4, e5, e6⟩ := tickBody_step s (by push_cast at hs; omega)
    have hs' : (tickBody s).1.remainingTime = (n : Int) + 1 := by
      rw [e1]; push_cast at hs ⊢; omega
    obtain ⟨i1, i2, i3, i4, i5, i6⟩ := ih (tickBody s).1 hs'
    rw [runTicks_succ_pos (n + 1) s h0]
    refine ⟨i1, ?_, i3, ?_, ?_, ?_⟩
    · simpa [e4] using i2
    · rw [i4, e4, e2]
    · simp [List.countP_append, e5, i5]
    · simp [List.countP_append, e6, i6]

/-- `handleTimerClick` always leaves a state with the requested remaining
duration, the running flag set, and the session kind and counter untouched. -/
theorem handleTimerClick_fields (d : Int) (s : AppState) :
    (handleTimerClick d s).remainingTime = d ∧
    (handleTimerClick d s).isRunning = true ∧
    (handleTimerClick d s).isInPomodoro = s.isInPomodoro ∧
    (handleTimerClick d s).pomodoroCount = s.pomodoroCount := by
  cases h : s.isRunning <;> simp [handleTimerClick, startTimer, stopRunning, h]

/-- Claim C1: for every valid duration D (a positive whole number of
minutes), `Start(D, Focus)` followed by `D*60` natural one-second ticks with
no intervening Stop leaves `running = false`, increments the completed-focus
counter by exactly 1 (wrapping to 1 when the incremented value exceeds 4),
and produces exactly one terminal icon render and exactly one completion
beep. -/
theorem claim_C1 (stg : TimerSettings) (s : AppState)
    (hD : 0 < stg.pomodoroDuration) :
    (runTicks (stg.pomodoroDuration * 60).toNat
        (clickStartPomodoro stg s)).1.isRunning = false ∧
    (runTicks (stg.pomodoroDuration * 60).toNat
        (clickStartPomodoro stg s)).1.pomodoroCount =
      (if s.pomodoroCount + 1 > 4 then 1 else s.pomodoroCount + 1) ∧
    (runTicks (stg.pomodoroDuration * 60).toNat
        (clickStartPomodoro stg s)).2.countP Ev.isTerminalRender = 1 ∧
    (runTicks (stg.pomodoroDuration * 60).toNat
        (clickStartPomodoro stg s)).2.countP Ev.isCompletionBeep = 1 := by
  obtain ⟨f1, f2, f3, f4⟩ :=
    handleTimerClick_fields (stg.pomodoroDuration * 60)
      { s with isInPomodoro := true }
  have hpom : (clickStartPomodoro stg s).isInPomodoro = true := by
    rw [clickStartPomodoro, f3]
  have hcnt : (clickStartPomodoro stg s).pomodoroCount = s.pomodoroCount := by
    rw [clickStartPomodoro, f4]
  obtain ⟨m, hm⟩ : ∃ m, (stg.pomodoroDuration * 60).toNat = m + 1 :=
    ⟨(stg.pomodoroDuration * 60).toNat - 1, by omega⟩
  have hrem : (clickStartPomodoro stg s).remainingTime = (m : Int) + 1 := by
    rw [clickStartPomodoro, f1]; omega
  obtain ⟨r1, _, _, r4, r5, r6⟩ := runTicks_completes m _ hrem
  rw [hm]
  exact ⟨r1, by rw [r4, hpom, hcnt]; simp, r5, r6⟩

/-- Witness for C1 at the concrete settings (1, 5, 15, sound on) and the
initial state: one minute of focus, sixty ticks. -/
theorem claim_C1_witness :
    ((0 : Int) < (TimerSettings.mk 1 5 15 true).pomodoroDuration) ∧
    ((runTicks ((TimerSettings.mk 1 5 15 true).pomodoroDuration * 60).toNat
        (clickStartPomodoro (TimerSettings.mk 1 5 15 true)
          initialState)).1.isRunning = false ∧
     (runTicks ((TimerSettings.mk 1 5 15 true).pomodoroDuration * 60).toNat
        (clickStartPomodoro (TimerSettings.mk 1 5 15 true)
          initialState)).1.pomodoroCount =
       (if initialState.pomodoroCount + 1 > 4 then 1
        else initialState.pomodoroCount + 1) ∧
     (runTicks ((TimerSettings.mk 1 5 15 true).pomodoroDuration * 60).toNat
        (clickStartPomodoro (TimerSettings.mk 1 5 15 true)
          initialState)).2.countP Ev.isTerminalRender = 1 ∧
     (runTicks ((TimerSettings.mk 1 5 15 true).pomodoroDuration * 60).toNat
        (clickStartPomodoro (TimerSettings.mk 1 5 15 true)
          initialState)).2.countP Ev.isCompletionBeep = 1) :=
  ⟨by decide, claim_C1 (TimerSettings.mk 1 5 15 true) initialState (by decide)⟩

/-- Claim C2: starting while a countdown is running equals stopping and then
starting with the same parameters — the state after `handleTimerClick` on a
running state is the state after the tray-click stop followed by the same
`handleTimerClick`; the aborted countdown's generation token is dead, so a
tick addressed to it changes nothing and emits nothing (no residual
countdown process survives); and the resulting session kind, running flag
and remaining time are exactly those of a fresh start from any idle state of
the same session kind. -/
theorem claim_C2 (stg : TimerSettings) (d : Int) (s sIdle : AppState)
    (hrun : s.isRunning = true) (_hidle : sIdle.isRunning = false)
    (hkind : sIdle.isInPomodoro = s.isInPomodoro) :
    handleTimerClick d s = handleTimerClick d (handleTrayClick stg s).1 ∧
    tickProc s.gen (handleTimerClick d s) = (handleTimerClick d s, []) ∧
    (handleTimerClick d s).isInPomodoro =
      (handleTimerClick d sIdle).isInPomodoro ∧
    (handleTimerClick d s).isRunning = (handleTimerClick d sIdle).isRunning ∧
    (handleTimerClick d s).remainingTime =
      (handleTimerClick d sIdle).remainingTime := by
  obtain ⟨f1, f2, f3, _⟩ := handleTimerClick_fields d s
  obtain ⟨g1, g2, g3, _⟩ := handleTimerClick_fields d sIdle
  refine ⟨?_, ?_, ?_, ?_, ?_⟩
  · simp [handleTimerClick, handleTrayClick, hrun, stopRunning, startTimer]
  · have hg : (handleTimerClick d s).gen = s.gen + 1 := by
      simp [handleTimerClick, hrun, stopRunning, startTimer]
    rw [tickProc, if_neg]
    rintro ⟨h1, -⟩
    rw [hg] at h1
    omega
  · rw [f3, g3, hkind]
  · rw [f2, g2]
  · rw [f1, g1]

/-- Witness for C2 at a concrete running focus state, a concrete idle state
of the same kind, the default settings and a 300-second duration. -/
theorem claim_C2_witness :
    ((AppState.mk 2 true true 30 "30" 7).isRunning = true) ∧
    ((AppState.mk 2 false true 0 "" 0).isRunning = false) ∧
    ((AppState.mk 2 false true 0 "" 0).isInPomodoro =
      (AppState.mk 2 true true 30 "30" 7).isInPomodoro) ∧
    (handleTimerClick 300 (AppState.mk 2 true true 30 "30" 7) =
      handleTimerClick 300
        (handleTrayClick defaultSettings (AppState.mk 2 true true 30 "30" 7)).1 ∧
     tickProc (AppState.mk 2 true true 30 "30" 7).gen
        (handleTimerClick 300 (AppState.mk 2 true true 30 "30" 7)) =
      (handleTimerClick 300 (AppState.mk 2 true true 30 "30" 7), []) ∧
     (handleTimerClick 300 (AppState.mk 2 true true 30 "30" 7)).isInPomodoro =
      (handleTimerClick 300 (AppState.mk 2 false true 0 "" 0)).isInPomodoro ∧
     (handleTimerClick 300 (AppState.mk 2 true true 30 "30" 7)).isRunning =
      (handleTimerClick 300 (AppState.mk 2 false true 0 "" 0)).isRunning ∧
     (handleTimerClick 300 (AppState.mk 2 true true 30 "30" 7)).remainingTime =
      (handleTimerClick 300 (AppState.mk 2 false true 0 "" 0)).remainingTime) :=
  ⟨by decide, by decide, by decide,
   claim_C2 defaultSettings 300 (AppState.mk 2 true true 30 "30" 7)
     (AppState.mk 2 false true 0 "" 0) (by decide) (by decide) (by decide)⟩

/-- Claim C4: stopping a running countdown (the tray click's stop branch, and
equally the inline stop sequence of `handleTimerClick`, which emits no call
at all) transitions to idle, leaves the completed-focus counter unchanged,
and produces neither a terminal icon render nor a completion beep (the tray
path's only icon render is the distinct stop-branch render of the idle
glyph). -/
theorem claim_C4 (stg : TimerSettings) (s : AppState)
    (hrun : s.isRunning = true) :
    (handleTrayClick stg s).1.isRunning = false ∧
    (handleTrayClick stg s).1.pomodoroCount = s.pomodoroCount ∧
    (handleTrayClick stg s).2.countP Ev.isTerminalRender = 0 ∧
    (handleTrayClick stg s).2.countP Ev.isCompletionBeep = 0 ∧
    (stopRunning s).isRunning = false ∧
    (stopRunning s).pomodoroCount = s.pomodoroCount := by
  simp [handleTrayClick, hrun, stopRunning, Ev.isTerminalRender,
    Ev.isCompletionBeep]

/-- Witness for C4 at a concrete running break state. -/
theorem claim_C4_witness :
    ((AppState.mk 3 true false 42 "42" 1).isRunning = true) ∧
    ((handleTrayClick defaultSettings
        (AppState.mk 3 true false 42 "42" 1)).1.isRunning = false ∧
     (handleTrayClick defaultSettings
        (AppState.mk 3 true false 42 "42" 1)).1.pomodoroCount =
       (AppState.mk 3 true false 42 "42" 1).pomodoroCount ∧
     (handleTrayClick defaultSettings
        (AppState.mk 3 true false 42 "42" 1)).2.countP Ev.isTerminalRender = 0 ∧
     (handleTrayClick defaultSettings
        (AppState.mk 3 true false 42 "42" 1)).2.countP Ev.isCompletionBeep = 0 ∧
     (stopRunning (AppState.mk 3 true false 42 "42" 1)).isRunning = false ∧
     (stopRunning (AppState.mk 3 true false 42 "42" 1)).pomodoroCount =
       (AppState.mk 3 true false 42 "42" 1).pomodoroCount) :=
  ⟨by decide,
   claim_C4 defaultSettings (AppState.mk 3 true false 42 "42" 1) (by decide)⟩

/-- A tray click never changes the completed-focus counter (it only reads it,
for the long-break choice and the dot renders). -/
theorem handleTrayClick_count (stg : TimerSettings) (s : AppState) :
    (handleTrayClick stg s).1.pomodoroCount = s.pomodoroCount := by
  simp only [handleTrayClick]
  split_ifs <;> simp [stopRunning, startTimer]

/-- The three menu start handlers never change the completed-focus counter. -/
theorem clickStart_count (stg : TimerSettings) (s : AppState) :
    (clickStartPomodoro stg s).pomodoroCount = s.pomodoroCount ∧
    (clickStartBreak stg s).pomodoroCount = s.pomodoroCount ∧
    (clickStartLongBreak stg s).pomodoroCount = s.pomodoroCount := by
  refine ⟨?_, ?_, ?_⟩ <;>
    simp [clickStartPomodoro, clickStartBreak, clickStartLongBreak,
      (handleTimerClick_fields _ _).2.2.2]

/-- A ticker delivery changes the completed-focus counter exactly when it
reaches a live countdown (current generation token, loop guard holding) at
its terminal step during a focus session, and then wrap-increments it. -/
theorem tickProc_count (g : Nat) (s : AppState) :
    (tickProc g s).1.pomodoroCount =
      if g = s.gen ∧ 0 < s.remainingTime ∧ s.remainingTime ≤ 1 ∧
         s.isInPomodoro = true
      then (if s.pomodoroCount + 1 > 4 then 1 else s.pomodoroCount + 1)
      else s.pomodoroCount := by
  by_cases hfire : g = s.gen ∧ 0 < s.remainingTime
  · rw [tickProc, if_pos hfire]
    by_cases hterm : s.remainingTime ≤ 1
    · have h4 := (tickBody_terminal s hterm).2.2.2.1
      cases hp : s.isInPomodoro
      · rw [if_neg (by simp [hp])]
        rw [hp] at h4
        simpa using h4
      · rw [if_pos ⟨hfire.1, hfire.2, hterm, rfl⟩]
        rw [hp] at h4
        simpa using h4
    · rw [if_neg (by tauto)]
      exact (tickBody_step s (by omega)).2.1
  · rw [tickProc, if_neg hfire, if_neg (by tauto)]

/-- Every reachable state keeps the completed-focus counter in `[0, 4]`. -/
theorem reachable_count_range (s : AppState) (hs : Reachable s) :
    0 ≤ s.pomodoroCount ∧ s.pomodoroCount ≤ 4 := by
  induction hs with
  | init => exact ⟨by decide, by decide⟩
  | trayClick stg h ih => rw [handleTrayClick_count]; exact ih
  | startPomodoro stg h ih => rw [(clickStart_count stg _).1]; exact ih
  | startBreak stg h ih => rw [(clickStart_count stg _).2.1]; exact ih
  | startLongBreak stg h ih => rw [(clickStart_count stg _).2.2]; exact ih
  | tick g h ih =>
    rw [tickProc_count]
    split_ifs with h1 h2 <;> omega

/-- Claim C3: in every state reachable from the initial state by any sequence
of start, stop and tick operations the completed-focus counter lies in
`[0, 4]`; the start and stop operations never mutate it, and a ticker
delivery mutates it exactly on the natural terminal step of a focus session,
wrap-incrementing it (any value exceeding 4 is replaced by 1). -/
theorem claim_C3 (s : AppState) (hs : Reachable s) :
    (0 ≤ s.pomodoroCount ∧ s.pomodoroCount ≤ 4) ∧
    (∀ stg : TimerSettings,
      (handleTrayClick stg s).1.pomodoroCount = s.pomodoroCount ∧
      (clickStartPomodoro stg s).pomodoroCount = s.pomodoroCount ∧
      (clickStartBreak stg s).pomodoroCount = s.pomodoroCount ∧
      (clickStartLongBreak stg s).pomodoroCount = s.pomodoroCount) ∧
    (∀ g : Nat, (tickProc g s).1.pomodoroCount =
      if g = s.gen ∧ 0 < s.remainingTime ∧ s.remainingTime ≤ 1 ∧
         s.isInPomodoro = true
      then (if s.pomodoroCount + 1 > 4 then 1 else s.pomodoroCount + 1)
      else s.pomodoroCount) :=
  ⟨reachable_count_range s hs,
   fun stg => ⟨handleTrayClick_count stg s, clickStart_count stg s⟩,
   fun g => tickProc_count g s⟩

/-- Witness for C3 at the initial state. -/
theorem claim_C3_witness :
    0 ≤ initialState.pomodoroCount ∧ initialState.pomodoroCount ≤ 4 :=
  (claim_C3 initialState Reachable.init).1

/-- Claim C5: `loadSettings` never fails the caller — it is a total function,
and both when the settings file is absent (read error) and when its contents
fail to unmarshal it yields exactly the built-in defaults: pomodoro 25
minutes, short break 5, long break 15, sound enabled. -/
theorem claim_C5 :
    loadSettings none = TimerSettings.mk 25 5 15 true ∧
    loadSettings (some none) = TimerSettings.mk 25 5 15 true := by
  constructor <;> rfl

/-- Claim C6: for every valid settings record (positive durations), saving
and then loading yields the same record. -/
theorem claim_C6 (S : TimerSettings) (h1 : 0 < S.pomodoroDuration)
    (h2 : 0 < S.shortBreakDuration) (h3 : 0 < S.longBreakDuration) :
    loadSettings (saveSettings S) = S := by
  cases S
  rfl

/-- Witness for C6 at the default settings. -/
theorem claim_C6_witness :
    ((0 : Int) < defaultSettings.pomodoroDuration) ∧
    ((0 : Int) < defaultSettings.shortBreakDuration) ∧
    ((0 : Int) < defaultSettings.longBreakDuration) ∧
    loadSettings (saveSettings defaultSettings) = defaultSettings :=
  ⟨by decide, by decide, by decide,
   claim_C6 defaultSettings (by decide) (by decide) (by decide)⟩

/-- Claim C10: for every settings file holding valid JSON that may omit some
of the four fields, loading merges the document over the defaults at the
field level — each omitted field gets the built-in default, each present
field gets the file's value — and no error reaches the caller (the function
is total). -/
theorem claim_C10 (d : SettingsDoc) :
    loadSettings (some (some d)) =
      TimerSettings.mk (d.pomodoro_duration.getD 25)
        (d.short_break_duration.getD 5) (d.long_break_duration.getD 15)
        (d.enable_clock_sound.getD true) := by
  rfl

/-- Claim C7: the countdown display text stored and rendered by a
non-terminal tick is the whole number of remaining minutes when at least one
minute remains and the whole number of remaining seconds under one minute;
at 60 seconds remaining it is "1", at 59 it is "59". -/
theorem claim_C7 :
    (∀ s : AppState, 1 < s.remainingTime →
      (tickBody s).1.oldDisplayText = displayTextOf (s.remainingTime - 1)) ∧
    (∀ r : Int, 60 ≤ r → displayTextOf r = toString (r.tdiv 60)) ∧
    (∀ r : Int, 0 ≤ r → r < 60 → displayTextOf r = toString r) ∧
    displayTextOf 60 = "1" ∧
    displayTextOf 59 = "59" := by
  refine ⟨?_, ?_, ?_, by decide, by decide⟩
  · intro s h
    have hr : ¬ (s.remainingTime - 1 ≤ 0) := by omega
    by_cases h2 : displayTextOf (s.remainingTime - 1) ≠ s.oldDisplayText <;>
      simp [tickBody, hr, h2]
    tauto
  · intro r h
    rw [displayTextOf, if_neg (by omega)]
  · intro r h1 h2
    rw [displayTextOf, if_pos h2]

/-- Witness for C7: a tick at 61 seconds remaining stores the minute form
"1". -/
theorem claim_C7_witness :
    (1 : Int) < (AppState.mk 0 true true 61 "" 0).remainingTime ∧
    (tickBody (AppState.mk 0 true true 61 "" 0)).1.oldDisplayText =
      displayTextOf ((AppState.mk 0 true true 61 "" 0).remainingTime - 1) :=
  ⟨by decide, claim_C7.1 (AppState.mk 0 true true 61 "" 0) (by decide)⟩

/-- Claim C8: on a non-terminal countdown step (post-decrement remaining
still positive) the per-second tick cue is played exactly when the remaining
time is within the final 11 seconds (`remaining < 11s` after the decrement),
and a terminal step plays no tick cue. -/
theorem claim_C8 (s : AppState) :
    (1 < s.remainingTime →
      (tickBody s).2.countP Ev.isTickBeep =
        (if s.remainingTime - 1 < 11 then 1 else 0)) ∧
    (s.remainingTime ≤ 1 → (tickBody s).2.countP Ev.isTickBeep = 0) := by
  constructor
  · intro h
    have hr : ¬ (s.remainingTime - 1 ≤ 0) := by omega
    by_cases h1 : s.remainingTime - 1 < 11 <;>
      by_cases h2 : displayTextOf (s.remainingTime - 1) ≠ s.oldDisplayText <;>
        simp [tickBody, hr, h1, h2, Ev.isTickBeep]
  · intro h
    exact (tickBody_terminal s h).2.2.2.2.2.2

/-- Witness for C8: at 10 seconds remaining after the decrement the tick cue
plays (count 1); the theorem applied at a concrete state inside the final 11
seconds. -/
theorem claim_C8_witness :
    (1 : Int) < (AppState.mk 0 true true 11 "11" 0).remainingTime ∧
    (tickBody (AppState.mk 0 true true 11 "11" 0)).2.countP Ev.isTickBeep =
      (if (AppState.mk 0 true true 11 "11" 0).remainingTime - 1 < 11
       then 1 else 0) :=
  ⟨by decide, (claim_C8 (AppState.mk 0 true true 11 "11" 0)).1 (by decide)⟩

/-- Counterexample to claim C9 as stated: the wave `playTickSound` constructs
is mono, not interleaved stereo — `NewSineWave` is called with channel count
1, so a 4-byte read from the start of the stream yields two consecutive
2-byte frames holding two different sample indices (here, samples 0 and 1 of
the identity sample function, bytes `[0, 0, 1, 0]`), not one 4-byte stereo
frame duplicating sample 0 on both channels (bytes `[0, 0, 0, 0]`). -/
theorem claim_C9_cex :
    playTickWave.channelCount = 1 ∧
    ¬ playTickWave.channelCount = 2 ∧
    (SineWave.read (fun p => p) playTickWave [0, 0, 0, 0]).2.1 = [0, 0, 1, 0] ∧
    ¬ (SineWave.read (fun p => p) playTickWave [0, 0, 0, 0]).2.1 =
        [0, 0, 0, 0] := by
  refine ⟨rfl, by decide, by decide, by decide⟩

/-- The generation loop lays the frames out consecutively: for a mono wave,
the 2 bytes at frame offset `i` are the little-endian encoding of the sample
at index `p + i`. -/
theorem writeFrames_one_index (sample : Int → Int) :
    ∀ (k : Nat) (p : Int) (i : Nat) (rest : List Nat), i < k →
    ((writeFrames sample 1 p k ++ rest).drop (2 * i)).take 2 =
      [lowByte (sample (p + (i : Int))), highByte (sample (p + (i : Int)))] := by
  intro k
  induction k with
  | zero => intro p i rest h; omega
  | succ k ih =>
    intro p i rest h
    cases i with
    | zero => simp [writeFrames, frameBytes]
    | succ i =>
      have hsplit : writeFrames sample 1 p (k + 1) ++ rest =
          lowByte (sample p) :: highByte (sample p) ::
            (writeFrames sample 1 (p + 1) k ++ rest) := by
        simp [writeFrames, frameBytes]
      rw [hsplit]
      have hdrop : (2 : Nat) * (i + 1) = (2 * i) + 1 + 1 := by omega
      rw [hdrop, List.drop_succ_cons, List.drop_succ_cons]
      have := ih (p + 1) i rest (by omega)
      rw [this]
      have harg : p + 1 + (i : Int) = p + ((i + 1 : Nat) : Int) := by
        push_cast; ring
      rw [harg]

/-- Claim C9, amended: the short synthesized cue is rendered as signed 16-bit
little-endian samples of a fixed-frequency sine wave of fixed amplitude and
fixed short duration, but as a single-channel (mono) stream, not interleaved
stereo: `playTickSound` constructs its wave with channel count 1 (and byte
length 8820 = 44100 samples/s * 200 ms * 2 bytes... counted in bytes by the
reader), and every read from a one-channel wave fills the buffer with
consecutive 2-byte frames, frame `i` being the little-endian two's-complement
encoding of the (quantized) sine sample at index `pos/2 + i`, for every
per-sample quantization function. -/
theorem claim_C9 (sample : Int → Int) (w : SineWave) (buf : List Nat)
    (hc : w.channelCount = 1) (_h0 : 0 ≤ w.pos) (hlt : w.pos < w.length) :
    (∀ i : Nat, i < (SineWave.read sample w buf).1 / 2 →
      (((SineWave.read sample w buf).2.1).drop (2 * i)).take 2 =
        [lowByte (sample (w.pos.tdiv 2 + (i : Int))),
         highByte (sample (w.pos.tdiv 2 + (i : Int)))]) ∧
    (SineWave.read sample w buf).2.2.1.pos =
      w.pos + ((SineWave.read sample w buf).1 : Int) ∧
    playTickWave.channelCount = 1 ∧
    playTickWave.length = 8820 := by
  have hne : ¬ (w.length ≤ w.pos) := by omega
  constructor
  · intro i hi
    rw [SineWave.read] at hi ⊢
    rw [if_neg hne] at hi ⊢
    simp only [hc] at hi ⊢
    exact writeFrames_one_index sample _ _ i _ (by simpa using hi)
  · refine ⟨?_, rfl, by decide⟩
    rw [SineWave.read, if_neg hne]

/-- Witness for the amended C9: reading 4 bytes from the start of the mono
tick wave with the concrete sample function `p + 5`, the frame at index 1
encodes sample value 6 as `[6, 0]`. -/
theorem claim_C9_witness :
    playTickWave.channelCount = 1 ∧
    (0 : Int) ≤ playTickWave.pos ∧
    playTickWave.pos < playTickWave.length ∧
    (((SineWave.read (fun p => p + 5) playTickWave [9, 9, 9, 9]).2.1).drop
        (2 * 1)).take 2 = [6, 0] := by
  refine ⟨rfl, by decide, by decide, ?_⟩
  have h := (claim_C9 (fun p => p + 5) playTickWave [9, 9, 9, 9] rfl
    (by decide) (by decide)).1 1 (by decide)
  rw [h]
  decide
